import Mathlib

/-!
Shallow embedding of the sagebot automation runner (src/lib/bot.py,
src/lib/browser.py, src/lib/gui.py) and proofs of the specified
properties of its step engine, session context and screen locator.

Python numeric and container semantics are made explicit:
`pyTrunc` is Python's `int()` truncation toward zero on a rational,
`pyRound` is Python 3 `round()` (round-half-to-even) on a rational,
and `pyIndex` is Python list indexing with negative indices and
`none` standing for an `IndexError`.
-/

namespace Sagebot

/-- Python `int(q)`: truncation toward zero. -/
def pyTrunc (q : ℚ) : ℤ :=
  if 0 ≤ q then ⌊q⌋ else -⌊-q⌋

/-- Python 3 `round(q)`: nearest integer, ties to the even integer. -/
def pyRound (q : ℚ) : ℤ :=
  if q - ⌊q⌋ < 1/2 then ⌊q⌋
  else if 1/2 < q - ⌊q⌋ then ⌊q⌋ + 1
  else if ⌊q⌋ % 2 = 0 then ⌊q⌋ else ⌊q⌋ + 1

/-- Python list indexing `l[i]`: negative `i` counts from the end;
`none` models an `IndexError`. -/
def pyIndex {α : Type} (l : List α) (i : ℤ) : Option α :=
  if 0 ≤ i then l.get? i.toNat
  else if 0 ≤ i + l.length then l.get? (i + l.length).toNat
  else none

/-!
## SessionContext: `BotContext` from src/lib/bot.py

Browser handles (Playwright instance, browser, browser context, pages,
elements) are opaque to the context logic, so they are modelled by
natural-number identifiers. Fields mirror `BotContext.__init__`.
-/

/-- `BotContext` state (src/lib/bot.py lines 72-83). Run-folder and
run-name bookkeeping is elided: no claim touches it. -/
structure BotContext where
  playwright : Option Nat := none
  browser : Option Nat := none
  context : Option Nat := none
  page : Option Nat := none
  current_element : Option Nat := none
  data : List (String × String) := []
  pages : List Nat := []
deriving DecidableEq

/-- The freshly constructed context (`BotContext.__init__`). -/
def initContext : BotContext := {}

/-- `BotContext.set_playwright` (bot.py lines 85-95). -/
def set_playwright (ctx : BotContext) (p : Nat) : BotContext :=
  { ctx with playwright := some p }

/-- `BotContext.set_browser` (bot.py lines 97-107). -/
def set_browser (ctx : BotContext) (b : Nat) : BotContext :=
  { ctx with browser := some b }

/-- `BotContext.set_context` (bot.py lines 109-119). -/
def set_context (ctx : BotContext) (c : Nat) : BotContext :=
  { ctx with context := some c }

/-- `BotContext.set_page` (bot.py lines 121-133): sets the current page
and appends it to `pages` when not already present. -/
def set_page (ctx : BotContext) (p : Nat) : BotContext :=
  { ctx with
    page := some p
    pages := if p ∈ ctx.pages then ctx.pages else ctx.pages ++ [p] }

/-- `BotContext.set_current_element` (bot.py lines 135-145). -/
def set_current_element (ctx : BotContext) (e : Nat) : BotContext :=
  { ctx with current_element := some e }

/-- `BotContext.store_data` (bot.py lines 158-169): dict assignment,
last write for a key wins. -/
def store_data (ctx : BotContext) (k v : String) : BotContext :=
  { ctx with data := (k, v) :: ctx.data.filter (fun kv => kv.1 ≠ k) }

/-- `BotContext.get_data` (bot.py lines 179-188). -/
def get_data (ctx : BotContext) (k : String) : Option String :=
  (ctx.data.find? (fun kv => kv.1 = k)).map Prod.snd

/-- `BotContext.get_page` (bot.py lines 147-156):
`self.pages[index] if self.pages else self.page`. An out-of-range
index on a non-empty `pages` list is a Python `IndexError`, modelled
as `.error`. -/
def get_page (ctx : BotContext) (index : ℤ := -1) :
    Except String (Option Nat) :=
  if ctx.pages.isEmpty then .ok ctx.page
  else
    match pyIndex ctx.pages index with
    | some p => .ok (some p)
    | none => .error "IndexError: list index out of range"

/-- The context mutations a step may perform through the `BotContext`
API, for stating state invariants. -/
inductive CtxOp : Type
  | setPlaywright (p : Nat)
  | setBrowser (b : Nat)
  | setContext (c : Nat)
  | setPage (p : Nat)
  | setCurrentElement (e : Nat)
  | storeData (k v : String)
deriving DecidableEq

/-- Interpret one `CtxOp` on the context. -/
def applyOp (ctx : BotContext) : CtxOp → BotContext
  | .setPlaywright p => set_playwright ctx p
  | .setBrowser b => set_browser ctx b
  | .setContext c => set_context ctx c
  | .setPage p => set_page ctx p
  | .setCurrentElement e => set_current_element ctx e
  | .storeData k v => store_data ctx k v

/-- Interpret a sequence of `CtxOp`s. -/
def applyOps (ctx : BotContext) (ops : List CtxOp) : BotContext :=
  ops.foldl applyOp ctx

/-!
## Browser steps: src/lib/browser.py

Selector parsing happens inside each step's `__init__`, so step
construction is embedded as an `Except`-valued function: `.error`
models the `ValueError` escaping the constructor before `execute`
(and hence any context) is ever reached.
-/

/-- Python truthiness of an optional string argument: `None` and the
empty string are falsy. -/
def strTruthy : Option String → Bool
  | none => false
  | some s => s != ""

/-- `BrowserStep.parse_selector` (browser.py lines 14-33): prefers the
xpath argument, falls back to css, raises `ValueError` when neither is
truthy. -/
def parse_selector (x_path css : Option String) : Except String String :=
  if strTruthy x_path then .ok ("xpath=" ++ x_path.getD "")
  else if strTruthy css then .ok ("css=" ++ css.getD "")
  else .error "No selector provided"

/-- Configuration captured by `ClickElement.__init__` (browser.py
lines 137-146). -/
structure ClickElementStep where
  selector : String
  wait : Nat
deriving DecidableEq

/-- `ClickElement.__init__`: calls `parse_selector` at construction
time; a `ValueError` there propagates out of the constructor. -/
def ClickElement_init (x_path css : Option String) (wait : Nat) :
    Except String ClickElementStep :=
  (parse_selector x_path css).map fun sel => ⟨sel, wait⟩

/-- Configuration captured by `FillInput.__init__` (browser.py
lines 173-184). -/
structure FillInputStep where
  selector : String
  value : Option String
  wait : Nat
deriving DecidableEq

/-- `FillInput.__init__`. -/
def FillInput_init (x_path css value : Option String) (wait : Nat) :
    Except String FillInputStep :=
  (parse_selector x_path css).map fun sel => ⟨sel, value, wait⟩

/-- Configuration captured by `FillAndSubmit.__init__` (browser.py
lines 206-217). -/
structure FillAndSubmitStep where
  selector : String
  value : Option String
  wait : Nat
deriving DecidableEq

/-- `FillAndSubmit.__init__`. -/
def FillAndSubmit_init (x_path css value : Option String) (wait : Nat) :
    Except String FillAndSubmitStep :=
  (parse_selector x_path css).map fun sel => ⟨sel, value, wait⟩

/-- Configuration captured by `ClickAndDownload.__init__` (browser.py
lines 240-254). -/
structure ClickAndDownloadStep where
  selector : String
  download_path : String
  download_name : Option String
  wait : Nat
deriving DecidableEq

/-- `ClickAndDownload.__init__`. -/
def ClickAndDownload_init (x_path css : Option String) (wait : Nat)
    (download_path : String) (download_name : Option String) :
    Except String ClickAndDownloadStep :=
  (parse_selector x_path css).map fun sel =>
    ⟨sel, download_path, download_name, wait⟩

/-!
## HandleDialog: src/lib/browser.py lines 301-351

Python attribute semantics matter here: `HandleDialog.__init__` runs
`self.accept = accept`, so the *instance* attribute `accept` — a plain
`bool` — shadows the `accept` staticmethod on the class. `execute`
then registers `self.accept` as the page's dialog handler, which
resolves to that boolean, not to a callable. `self.dismiss` is not
shadowed and resolves to the `dismiss` staticmethod.
-/

/-- What a dialog-handler callable does when invoked. -/
inductive DialogAction : Type
  | accept
  | dismiss
deriving DecidableEq

/-- A Python value handed to `page.on("dialog", ...)`: either a real
callable (a staticmethod of `HandleDialog`) or a plain boolean. -/
inductive PyHandler : Type
  | callable (a : DialogAction)
  | boolean (b : Bool)
deriving DecidableEq

/-- Whether a `PyHandler` value is callable. -/
def PyHandler.isCallable : PyHandler → Bool
  | .callable _ => true
  | .boolean _ => false

/-- Attribute lookup `self.accept` after `HandleDialog.__init__` ran
`self.accept = accept`: the instance attribute (the constructor's
boolean) shadows the staticmethod. -/
def handleDialog_self_accept (acceptFlag : Bool) : PyHandler :=
  .boolean acceptFlag

/-- Attribute lookup `self.dismiss`: no instance attribute exists, so
it resolves to the `dismiss` staticmethod (browser.py lines 313-320). -/
def handleDialog_self_dismiss : PyHandler :=
  .callable .dismiss

/-- The handler `HandleDialog.execute` registers via
`context.page.on("dialog", ...)` (browser.py lines 341-346). -/
def handleDialog_registered (acceptFlag : Bool) : PyHandler :=
  if acceptFlag then handleDialog_self_accept acceptFlag
  else handleDialog_self_dismiss

/-!
## GUI steps: src/lib/gui.py

Ratios and durations are modelled as rationals (exact arithmetic for
the finite decimal values the code manipulates), screen dimensions as
naturals, rounded pixel outputs as integers.
-/

/-- Pixel coordinate from a ratio and a screen dimension:
`round(ratio * dim)` as in `MouseMove.execute` (gui.py lines 89-92)
and `DragTo.execute` (gui.py lines 126-129). -/
def ratioPixel (ratio : ℚ) (dim : ℕ) : ℤ :=
  pyRound (ratio * dim)

/-- The absolute target `MouseMove.execute` hands to
`pyautogui.moveTo` for screen size `(w, h)`. -/
def MouseMove_target (x_ratio y_ratio : ℚ) (w h : ℕ) : ℤ × ℤ :=
  (ratioPixel x_ratio w, ratioPixel y_ratio h)

/-- The absolute target `DragTo.execute` hands to `pyautogui.dragTo`
for screen size `(w, h)`. -/
def DragTo_target (x_ratio y_ratio : ℚ) (w h : ℕ) : ℤ × ℤ :=
  (ratioPixel x_ratio w, ratioPixel y_ratio h)

/-!
## ActionLog: `BotContext.log_action` (src/lib/bot.py lines 190-202)

`log_action` formats one line, prints it, and appends it to the run's
`actions.log` inside a bare `with open(...)` — there is no
`try`/`except`, so a failing append propagates to the caller. The
filesystem is modelled by `LogFile`, whose `appendFaulty` flag stands
for a transient write failure on the next append. Every component
that calls `log_action` therefore threads a `LogFile` and can itself
raise on a log-write failure.
-/

/-- The run's append-only log file, with a fault flag modelling a
transient write failure. -/
structure LogFile where
  lines : List String
  appendFaulty : Bool := false
deriving DecidableEq

/-- One `f.write(data + "\n")` on the opened log file: fails exactly
when the filesystem is faulty. -/
def fsAppend (fs : LogFile) (line : String) : Except String LogFile :=
  if fs.appendFaulty then .error "OSError: write failed"
  else .ok { fs with lines := fs.lines ++ [line] }

/-- The log line `log_action` formats (bot.py line 199), with the
timestamp a parameter. -/
def logLine (stamp action outcome : String) : String :=
  "[" ++ outcome ++ "] " ++ stamp ++ " - " ++ action

/-- `BotContext.log_action` (bot.py lines 190-202): prints and appends
the formatted line; the bare `with open`/`write` means an append
failure escapes to the caller, embedded as `.error`. -/
def log_action (fs : LogFile) (stamp action outcome : String) :
    Except String LogFile :=
  fsAppend fs (logLine stamp action outcome)

/-!
## Sleep: src/lib/gui.py lines 236-271

`__init__` stores `duration / 1000` seconds. `execute` with
`randomize` computes integer jitter bounds from that seconds value and,
when they differ, sleeps `randint(min, max) / 1000` seconds — dividing
the already-seconds jitter by 1000 again. The `randint` draw is made an
explicit parameter `r` with its defining bounds as hypotheses.
-/

/-- `self.duration` stored by `Sleep.__init__`: seconds. -/
def sleepDurationSec (duration_ms : ℕ) : ℚ :=
  (duration_ms : ℚ) / 1000

/-- `min_duration = max(int(self.duration - 1), 1)` (gui.py line 262). -/
def sleepMin (duration_ms : ℕ) : ℤ :=
  max (pyTrunc (sleepDurationSec duration_ms - 1)) 1

/-- `max_duration = max(int(self.duration + 1), min_duration)`
(gui.py line 263). -/
def sleepMax (duration_ms : ℕ) : ℤ :=
  max (pyTrunc (sleepDurationSec duration_ms + 1)) (sleepMin duration_ms)

/-- `actual_duration` slept by `Sleep.execute` with `randomize=True`
(gui.py lines 260-266), where `r` is the value drawn by
`randint(min_duration, max_duration)`. -/
def sleepActual (duration_ms : ℕ) (r : ℤ) : ℚ :=
  if sleepMin duration_ms ≠ sleepMax duration_ms then (r : ℚ) / 1000
  else sleepDurationSec duration_ms

/-!
## ClickOnReference: src/lib/gui.py lines 319-424

The OpenCV and screen environment is abstracted into `ScreenEnv`:
`template` is the result of `cv2.imread` (`none` = missing/unreadable
file), `capture` the screenshot dimensions, `matchPeak`/`matchLoc` the
`minMaxLoc` peak of the correlation surface, and `cvFault` models an
exception thrown inside the `try` block by the imaging stack, which
the `except` clause catches.

`execute` is NOT total: it calls `log_action` throughout, and three of
those calls sit outside the protection of the `except Exception`
clause — line 352 (before the `try`), line 417 (inside the `except`
handler itself) and lines 419-423 (after it) — so a log-write failure
at any of them propagates to the caller. The embedding threads the
`LogFile` through every `log_action` call in source order: calls
inside the `try` (lines 360-412) surface as a caught exception, the
unprotected ones as `.error`. The trailing waits are time only; the
`wait_pos` flag selects the `self.wait > 0` branches and their extra
log calls. A log failure inside the `try` can only happen on a faulty
filesystem, on which the line-352 call has already raised, so the
`except` handler resuming from the pre-`try` file is exact.
-/

/-- Environment a `ClickOnReference.execute` call observes. -/
structure ScreenEnv where
  /-- `cv2.imread` result: `none` is a missing or unreadable file,
  otherwise the template's (width, height). -/
  template : Option (Nat × Nat)
  /-- Screenshot (width, height). -/
  capture : Nat × Nat
  /-- `max_val` from `cv2.minMaxLoc`: the peak correlation. -/
  matchPeak : ℚ
  /-- `max_loc` from `cv2.minMaxLoc`: top-left of the best match. -/
  matchLoc : Nat × Nat
  /-- An exception raised inside the `try` block by the imaging
  stack, if any; caught by the `except Exception` clause. -/
  cvFault : Option String := none
deriving DecidableEq

/-- Observable outcome of one `ClickOnReference.execute` call. -/
inductive RefOutcome : Type
  /-- `template is None`: logged `Image not found`, context returned. -/
  | notFoundMissing
  /-- Peak below threshold: logged with the peak value for
  diagnostics, context returned. -/
  | notFoundLowPeak (peak : ℚ)
  /-- An exception was caught by the `except` clause and logged. -/
  | faultCaught (msg : String)
  /-- Match accepted: moved to and clicked `(x, y)`. -/
  | clicked (x y : ℤ)
deriving DecidableEq

/-- The clicked x pixel (gui.py lines 386-392):
`center_x = top_left[0] + template_width // 2`,
`x_ratio = center_x / screenshot_width`,
`x = round(x_ratio * screenshot_width)`. -/
def refClickX (env : ScreenEnv) (tw : ℕ) : ℤ :=
  pyRound (((env.matchLoc.1 + tw / 2 : ℕ) : ℚ) / env.capture.1
    * env.capture.1)

/-- The clicked y pixel (gui.py lines 387-393), as `refClickX`. -/
def refClickY (env : ScreenEnv) (th : ℕ) : ℤ :=
  pyRound (((env.matchLoc.2 + th / 2 : ℕ) : ℚ) / env.capture.2
    * env.capture.2)

/-- The `try` block of `ClickOnReference.execute` (gui.py lines
354-412). `.error` is an exception for the `except` clause to catch —
from the imaging stack (`cvFault`) or from any `log_action` call
inside the block. `.ok (fs, some out)` is a `return context` inside
the `try` (lines 364 and 407); `.ok (fs, none)` falls through to the
code after the handler (below-threshold path, lines 409-412). -/
def cor_tryBody (threshold : ℚ) (env : ScreenEnv) (wait_pos : Bool)
    (stamp : String) (fs : LogFile) :
    Except String (LogFile × Option RefOutcome) :=
  match env.cvFault with
  | some e => .error e
  | none =>
    match env.template with
    | none =>
      -- lines 357-364: imread returned None
      match log_action fs stamp "Image not found" "❌" with
      | .error w => .error w
      | .ok fs1 =>
        if wait_pos then
          match log_action fs1 stamp "Waited after error" "⏳" with
          | .error w => .error w
          | .ok fs2 => .ok (fs2, some .notFoundMissing)
        else .ok (fs1, some .notFoundMissing)
    | some (tw, th) =>
      match log_action fs stamp "Template size" "📏" with
      | .error w => .error w
      | .ok fs1 =>
        match log_action fs1 stamp "Match confidence" "🎯" with
        | .error w => .error w
        | .ok fs2 =>
          if threshold ≤ env.matchPeak then
            -- lines 384-407: accepted match, move and click
            match log_action fs2 stamp "Reference found" "🎯" with
            | .error w => .error w
            | .ok fs3 =>
              match log_action fs3 stamp "Successfully clicked" "👆" with
              | .error w => .error w
              | .ok fs4 =>
                if wait_pos then
                  match log_action fs4 stamp
                      "Starting wait after successful click" "⏳" with
                  | .error w => .error w
                  | .ok fs5 =>
                    match log_action fs5 stamp "Completed wait" "⏳" with
                    | .error w => .error w
                    | .ok fs6 => .ok (fs6,
                        some (.clicked (refClickX env tw)
                          (refClickY env th)))
                else .ok (fs4,
                  some (.clicked (refClickX env tw) (refClickY env th)))
          else
            -- lines 409-412: below threshold, fall through
            match log_action fs2 stamp "No reference match found" "❌" with
            | .error w => .error w
            | .ok fs3 => .ok (fs3, none)

/-- The code after the `except` handler (gui.py lines 419-424): runs
on the below-threshold path and after a caught exception. Its
`log_action` calls are unprotected: a write failure here escapes
`execute`. -/
def cor_postBlock (wait_pos : Bool) (stamp : String) (fs : LogFile)
    (ctx : BotContext) (out : RefOutcome) :
    Except String (BotContext × LogFile × RefOutcome) :=
  match log_action fs stamp
      "ClickOnReference failed - executing fallback wait" "❌" with
  | .error w => .error w
  | .ok fs1 =>
    if wait_pos then
      match log_action fs1 stamp "Starting fallback wait" "⏳" with
      | .error w => .error w
      | .ok fs2 =>
        match log_action fs2 stamp "Completed fallback wait" "⏳" with
        | .error w => .error w
        | .ok fs3 => .ok (ctx, fs3, out)
    else .ok (ctx, fs1, out)

/-- `ClickOnReference.execute` (gui.py lines 343-424): the line-352
log call precedes the `try` (its failure escapes), the `try` body's
exceptions are caught and logged at line 417 (whose own failure
escapes), and lines 419-424 run unprotected before `return context`. -/
def ClickOnReference_execute (threshold : ℚ) (env : ScreenEnv)
    (wait_pos : Bool) (stamp : String) (fs : LogFile)
    (ctx : BotContext) :
    Except String (BotContext × LogFile × RefOutcome) :=
  match log_action fs stamp "Searching for reference image" "🔍" with
  | .error w => .error w
  | .ok fs0 =>
    match cor_tryBody threshold env wait_pos stamp fs0 with
    | .ok (fs1, some out) => .ok (ctx, fs1, out)
    | .ok (fs1, none) =>
      cor_postBlock wait_pos stamp fs1 ctx
        (.notFoundLowPeak env.matchPeak)
    | .error e =>
      match log_action fs0 stamp
          ("Error in ClickOnReference: " ++ e) "❌" with
      | .error w => .error w
      | .ok fs1 => cor_postBlock wait_pos stamp fs1 ctx (.faultCaught e)

/-!
## The Orchestrator: `SageBot.execute` (src/lib/bot.py lines 31-62)

A step is a named context transformer that may raise (`.error`); a
step's own log writes are part of its opaque `run`. The run is
embedded as an event trace — one event per step invocation (success
or logged failure) and one event each for `browser.close()` and
`playwright.stop()` — together with an exit. Two views of the loop
are given. `runSteps` is the invocation trace alone: which steps run,
in what order, and what failure is surfaced (the claim about
fail-fast ordering). `runLoop`/`SageBot_execute` additionally thread
the fallible `LogFile`: the `except`-branch `log_action` at bot.py
line 57 sits between the abort and the release at lines 60-61 with no
`try`/`finally`, so its write failure escapes `execute` before
`browser.close()`/`playwright.stop()` ever run; the final `log_action`
at line 62 can also raise, but only after the release. On a healthy
log file the two views agree (`runLoop_agrees_runSteps`).
-/

/-- A registered automation function: its class name and its
`execute`, which returns the next context or raises. -/
structure Step where
  name : String
  run : BotContext → Except String BotContext

/-- Observable events of one `SageBot.execute` run. -/
inductive Event : Type
  /-- `function.execute(context)` returned normally. -/
  | stepOk (name : String)
  /-- `function.execute(context)` raised; the `except` branch logged
  the step's class name and message and the loop `break`s. -/
  | stepFailed (name msg : String)
  /-- `self.context.browser.close()` (bot.py line 60). -/
  | browserClose
  /-- `self.context.playwright.stop()` (bot.py line 61). -/
  | playwrightStop
deriving DecidableEq

/-- The log line the `except` branch writes for a failed step
(bot.py line 57), with the `"❌"` outcome marker. -/
def failureLogLine (stamp name msg : String) : String :=
  logLine stamp ("Error executing " ++ name ++ ": " ++ msg) "❌"

/-- The `for function in self.functions` loop of `SageBot.execute`
(bot.py lines 53-58): threads the context, stops at the first raising
step (`break`), records one event per attempted step. -/
def runSteps : List Step → BotContext → BotContext × List Event
  | [], ctx => (ctx, [])
  | s :: rest, ctx =>
    match s.run ctx with
    | .ok ctx' =>
      let r := runSteps rest ctx'
      (r.1, .stepOk s.name :: r.2)
    | .error e => (ctx, [.stepFailed s.name e])

/-- Running a prefix of steps that all succeed: the context after the
loop has consumed them, `none` when one of them raises. -/
def runAll : List Step → BotContext → Option BotContext
  | [], ctx => some ctx
  | s :: rest, ctx =>
    match s.run ctx with
    | .ok ctx' => runAll rest ctx'
    | .error _ => none

/-- The `for function in self.functions` loop with the log file
threaded (bot.py lines 53-58). On a step failure the `except` branch
calls `log_action` (line 57): if that write succeeds the failure is
logged and the loop `break`s normally; if it fails, the `OSError`
escapes `execute` right there — exit `.error`, trace cut short, and
the caller never reaches lines 60-61. -/
def runLoop (stamp : String) :
    List Step → LogFile → BotContext →
    Except String (BotContext × LogFile) × List Event
  | [], fs, ctx => (.ok (ctx, fs), [])
  | s :: rest, fs, ctx =>
    match s.run ctx with
    | .ok ctx' =>
      let r := runLoop stamp rest fs ctx'
      (r.1, .stepOk s.name :: r.2)
    | .error e =>
      match log_action fs stamp
          ("Error executing " ++ s.name ++ ": " ++ e) "❌" with
      | .ok fs' => (.ok (ctx, fs'), [.stepFailed s.name e])
      | .error w => (.error w, [])

/-- `SageBot.execute` after resource acquisition (bot.py lines 53-62):
the step loop, then — only if the loop exits normally —
`browser.close()`, `playwright.stop()` and the final `log_action`
(line 62), whose own failure raises after the release. When the loop
exits by a raise (the line-57 log write failing), lines 60-62 are
never reached: no release events are emitted. -/
def SageBot_execute (stamp : String) (steps : List Step)
    (fs : LogFile) (ctx : BotContext) :
    Except String (BotContext × LogFile) × List Event :=
  match runLoop stamp steps fs ctx with
  | (.ok (ctx', fs'), evs) =>
    match log_action fs' stamp "Bot execution completed" "🏁" with
    | .ok fs2 =>
      (.ok (ctx', fs2), evs ++ [.browserClose, .playwrightStop])
    | .error w => (.error w, evs ++ [.browserClose, .playwrightStop])
  | (.error w, evs) => (.error w, evs)

/-- Occurrences of an event in a trace. -/
def countEvent (trace : List Event) (e : Event) : Nat :=
  trace.countP (fun x => decide (x = e))

/-!
## Helper lemmas
-/

theorem pyRound_intCast (n : ℤ) : pyRound (n : ℚ) = n := by
  simp [pyRound]

theorem pyRound_natCast (n : ℕ) : pyRound (n : ℚ) = n := by
  have h := pyRound_intCast (n : ℤ)
  rw [Int.cast_natCast] at h
  exact h

theorem pyRound_nonneg {q : ℚ} (h : 0 ≤ q) : 0 ≤ pyRound q := by
  have hf : (0 : ℤ) ≤ ⌊q⌋ := by
    rw [Int.le_floor]; exact_mod_cast h
  unfold pyRound
  split
  · exact hf
  · split
    · omega
    · split
      · exact hf
      · omega

theorem pyRound_le_int {q : ℚ} {n : ℤ} (h : q ≤ n) : pyRound q ≤ n := by
  have hf : ⌊q⌋ ≤ n := by
    calc ⌊q⌋ ≤ ⌊(n : ℚ)⌋ := Int.floor_le_floor h
    _ = n := Int.floor_intCast n
  have hfl : (⌊q⌋ : ℚ) ≤ q := Int.floor_le q
  unfold pyRound
  split
  · exact hf
  · rename_i hge
    push_neg at hge
    have hstrict : ⌊q⌋ < n := by
      have h1 : (⌊q⌋ : ℚ) + 1/2 ≤ (n : ℚ) := by linarith
      by_contra hcon
      push_neg at hcon
      have h2 : (n : ℚ) ≤ (⌊q⌋ : ℚ) := by exact_mod_cast hcon
      linarith
    split
    · omega
    · split
      · exact hf
      · omega

theorem pyTrunc_le_self {q : ℚ} (h : 0 ≤ q) : (pyTrunc q : ℚ) ≤ q := by
  unfold pyTrunc
  rw [if_pos h]
  exact Int.floor_le q

theorem pyIndex_valid {α : Type} (l : List α) (i : ℤ)
    (h0 : -(l.length : ℤ) ≤ i) (h1 : i < (l.length : ℤ)) :
    ∃ a, pyIndex l i = some a ∧ a ∈ l := by
  unfold pyIndex
  split
  · rename_i hge
    have hlt : i.toNat < l.length := by omega
    exact ⟨l.get ⟨i.toNat, hlt⟩, List.get?_eq_get hlt, List.get_mem l _ _⟩
  · rename_i hneg
    rw [if_pos (by omega)]
    have hlt : (i + l.length).toNat < l.length := by omega
    exact ⟨l.get ⟨(i + l.length).toNat, hlt⟩, List.get?_eq_get hlt,
      List.get_mem l _ _⟩

theorem set_page_pages_ne_nil (ctx : BotContext) (p : Nat) :
    (set_page ctx p).pages ≠ [] := by
  unfold set_page
  dsimp only
  split
  · rename_i hmem
    exact List.ne_nil_of_mem hmem
  · simp

theorem applyOp_pages_ne_nil (ctx : BotContext) (op : CtxOp)
    (h : ctx.pages ≠ []) : (applyOp ctx op).pages ≠ [] := by
  cases op with
  | setPage p => exact set_page_pages_ne_nil ctx p
  | setPlaywright p => exact h
  | setBrowser b => exact h
  | setContext c => exact h
  | setCurrentElement e => exact h
  | storeData k v => exact h

theorem applyOps_pages_ne_nil (ctx : BotContext) (ops : List CtxOp)
    (h : ctx.pages ≠ []) : (applyOps ctx ops).pages ≠ [] := by
  induction ops generalizing ctx with
  | nil => exact h
  | cons op rest ih =>
    exact ih (applyOp ctx op) (applyOp_pages_ne_nil ctx op h)

theorem get_page_valid_index (ctx : BotContext) (i : ℤ)
    (hne : ctx.pages ≠ [])
    (h0 : -(ctx.pages.length : ℤ) ≤ i) (h1 : i < (ctx.pages.length : ℤ)) :
    ∃ q, get_page ctx i = .ok (some q) ∧ q ∈ ctx.pages := by
  obtain ⟨a, ha, hmem⟩ := pyIndex_valid ctx.pages i h0 h1
  refine ⟨a, ?_, hmem⟩
  unfold get_page
  rw [if_neg (by simpa [List.isEmpty_iff] using hne), ha]

theorem runSteps_no_release (steps : List Step) (ctx : BotContext) :
    Event.browserClose ∉ (runSteps steps ctx).2 ∧
    Event.playwrightStop ∉ (runSteps steps ctx).2 := by
  induction steps generalizing ctx with
  | nil => simp [runSteps]
  | cons s rest ih =>
    unfold runSteps
    cases hrun : s.run ctx with
    | ok c =>
      have := ih c
      simp only [List.mem_cons]
      constructor
      · rintro (h | h)
        · exact Event.noConfusion h
        · exact (ih c).1 h
      · rintro (h | h)
        · exact Event.noConfusion h
        · exact (ih c).2 h
    | error e => simp

theorem log_action_ok (l : List String) (s a o : String) :
    log_action ⟨l, false⟩ s a o = .ok ⟨l ++ [logLine s a o], false⟩ :=
  rfl

theorem runLoop_agrees_runSteps (stamp : String) (steps : List Step)
    (lines : List String) (ctx : BotContext) :
    ∃ lines2, runLoop stamp steps ⟨lines, false⟩ ctx =
      (.ok ((runSteps steps ctx).1, ⟨lines2, false⟩),
        (runSteps steps ctx).2) := by
  induction steps generalizing lines ctx with
  | nil => exact ⟨lines, rfl⟩
  | cons s rest ih =>
    unfold runLoop runSteps
    cases hrun : s.run ctx with
    | ok ctx' =>
      obtain ⟨l2, h⟩ := ih lines ctx'
      refine ⟨l2, ?_⟩
      dsimp only
      rw [h]
    | error e =>
      exact ⟨lines ++ [logLine stamp
        ("Error executing " ++ s.name ++ ": " ++ e) "❌"], rfl⟩

/-!
## Claims
-/

/-- Claim C1: for every ordered step sequence run by `SageBot.execute`,
if step `B` raises then every step before `B` was executed, `B`'s
failure is logged with `B`'s class name under the `"❌"` failure
marker, and no step after `B` is ever invoked: the run's trace is
exactly one `stepOk` event per preceding step followed by the single
`stepFailed` event, independent of whatever follows `B`. -/
theorem orchestrator_fail_fast (pre : List Step) (B : Step)
    (post : List Step) (ctx ctx' : BotContext) (msg : String)
    (hpre : runAll pre ctx = some ctx')
    (hB : B.run ctx' = .error msg) :
    runSteps (pre ++ B :: post) ctx =
      (ctx', (pre.map fun s => Event.stepOk s.name) ++
        [Event.stepFailed B.name msg]) ∧
    (∀ stamp, failureLogLine stamp B.name msg =
      "[❌] " ++ stamp ++ " - Error executing " ++ B.name ++ ": " ++ msg) := by
  constructor
  · induction pre generalizing ctx with
    | nil =>
      simp only [runAll, Option.some.injEq] at hpre
      subst hpre
      simp [runSteps, hB]
    | cons s rest ih =>
      simp only [runAll] at hpre
      cases hrun : s.run ctx with
      | ok c =>
        rw [hrun] at hpre
        have hih := ih c hpre
        simp only [List.cons_append, runSteps, hrun, List.map_cons,
          List.append_eq, hih]
      | error e =>
        rw [hrun] at hpre
        exact absurd hpre (by simp)
  · intro stamp
    simp only [failureLogLine, logLine, String.append_assoc]
    rfl

/-- Witness for C1 at the spec's own example `[A, B(fails), C]`. -/
theorem orchestrator_fail_fast_witness :
    runAll [Step.mk "A" fun c => .ok c] initContext = some initContext ∧
    runSteps [Step.mk "A" (fun c => .ok c),
        Step.mk "B" (fun _ => .error "boom"),
        Step.mk "C" (fun c => .ok c)] initContext =
      (initContext, [Event.stepOk "A", Event.stepFailed "B" "boom"]) := by
  refine ⟨rfl, ?_⟩
  have h := orchestrator_fail_fast [Step.mk "A" fun c => .ok c]
    (Step.mk "B" fun _ => .error "boom") [Step.mk "C" fun c => .ok c]
    initContext initContext "boom" rfl rfl
  simpa using h.1

/-- Claim C2 counterexample: release is not guaranteed on the abort
path. With a failing step and a log file whose writes fail, the
`except`-branch `log_action` (bot.py line 57) raises before lines
60-61, so `execute` exits by that exception with zero
`browser.close()` and zero `playwright.stop()` events — the browser
is never closed and the driver never stopped. -/
theorem run_leaks_on_abort_log_failure :
    SageBot_execute "2024-01-01 00:00:00"
      [Step.mk "B" fun _ => Except.error "boom"] ⟨[], true⟩
      initContext = (.error "OSError: write failed", []) ∧
    countEvent (SageBot_execute "2024-01-01 00:00:00"
      [Step.mk "B" fun _ => Except.error "boom"] ⟨[], true⟩
      initContext).2 Event.browserClose = 0 ∧
    countEvent (SageBot_execute "2024-01-01 00:00:00"
      [Step.mk "B" fun _ => Except.error "boom"] ⟨[], true⟩
      initContext).2 Event.playwrightStop = 0 :=
  ⟨rfl, rfl, rfl⟩

/-- Claim C2 as amended: whenever the orchestrator's own log writes
succeed, every run of `SageBot.execute` — all steps succeeding or one
aborting the sequence — emits exactly one `browser.close()` and
exactly one `playwright.stop()` event, after all step events and
before the run returns; only a write failure of the line-57 failure
log lets `execute` escape before the release (the counterexample). -/
theorem run_releases_when_log_ok (stamp : String) (steps : List Step)
    (lines : List String) (ctx : BotContext) :
    countEvent (SageBot_execute stamp steps ⟨lines, false⟩ ctx).2
      Event.browserClose = 1 ∧
    countEvent (SageBot_execute stamp steps ⟨lines, false⟩ ctx).2
      Event.playwrightStop = 1 ∧
    ∃ stepTrace,
      (SageBot_execute stamp steps ⟨lines, false⟩ ctx).2 =
        stepTrace ++ [Event.browserClose, Event.playwrightStop] ∧
      Event.browserClose ∉ stepTrace ∧
      Event.playwrightStop ∉ stepTrace := by
  obtain ⟨h1, h2⟩ := runSteps_no_release steps ctx
  obtain ⟨l2, hL⟩ := runLoop_agrees_runSteps stamp steps lines ctx
  have htr : (SageBot_execute stamp steps ⟨lines, false⟩ ctx).2 =
      (runSteps steps ctx).2 ++
        [Event.browserClose, Event.playwrightStop] := by
    unfold SageBot_execute
    rw [hL]
    rfl
  refine ⟨?_, ?_, (runSteps steps ctx).2, htr, h1, h2⟩
  · rw [htr]
    unfold countEvent
    rw [List.countP_append]
    have hz : (runSteps steps ctx).2.countP
        (fun x => decide (x = Event.browserClose)) = 0 := by
      apply List.countP_eq_zero.mpr
      intro a ha
      simp only [decide_eq_true_eq]
      intro hEq
      exact h1 (hEq ▸ ha)
    rw [hz]
    rfl
  · rw [htr]
    unfold countEvent
    rw [List.countP_append]
    have hz : (runSteps steps ctx).2.countP
        (fun x => decide (x = Event.playwrightStop)) = 0 := by
      apply List.countP_eq_zero.mpr
      intro a ha
      simp only [decide_eq_true_eq]
      intro hEq
      exact h2 (hEq ▸ ha)
    rw [hz]
    rfl

/-- Claim C3 counterexample: `ClickOnReference.execute` does raise to
its caller. The `log_action` call at gui.py line 352 precedes the
`try`, so on a log file whose writes fail its `OSError` propagates
out of `execute` before the reference image is even loaded — here at
a concrete faulty filesystem with a missing reference file. -/
theorem clickOnReference_raises_on_log_failure :
    ClickOnReference_execute (8/10)
      ⟨none, (1920, 1080), 0, (0, 0), none⟩ false
      "2024-01-01 00:00:00" ⟨[], true⟩ initContext =
      .error "OSError: write failed" := rfl

/-- Claim C3 as amended: whenever the run's log-file writes succeed,
`ClickOnReference.execute` never raises to its caller — on every
environment it returns `.ok` with the caller's context unchanged; a
missing/unreadable reference yields the logged non-fatal
`notFoundMissing` outcome, and a peak below the threshold yields
`notFoundLowPeak` carrying the peak value for diagnostics. -/
theorem clickOnReference_nonfatal_when_log_ok (threshold : ℚ)
    (env : ScreenEnv) (wait_pos : Bool) (stamp : String)
    (lines : List String) (ctx : BotContext) :
    (∃ fs' out, ClickOnReference_execute threshold env wait_pos stamp
      ⟨lines, false⟩ ctx = .ok (ctx, fs', out)) ∧
    (env.cvFault = none → env.template = none →
      ∃ fs', ClickOnReference_execute threshold env wait_pos stamp
        ⟨lines, false⟩ ctx = .ok (ctx, fs', .notFoundMissing)) ∧
    (∀ tw th, env.cvFault = none → env.template = some (tw, th) →
      env.matchPeak < threshold →
      ∃ fs', ClickOnReference_execute threshold env wait_pos stamp
        ⟨lines, false⟩ ctx =
          .ok (ctx, fs', .notFoundLowPeak env.matchPeak)) := by
  obtain ⟨tpl, cap, peak, loc, fault⟩ := env
  refine ⟨?_, ?_, ?_⟩
  · cases fault with
    | some e =>
      cases wait_pos
      · exact ⟨_, _, rfl⟩
      · exact ⟨_, _, rfl⟩
    | none =>
      cases tpl with
      | none =>
        cases wait_pos
        · exact ⟨_, _, rfl⟩
        · exact ⟨_, _, rfl⟩
      | some wh =>
        obtain ⟨tw, th⟩ := wh
        by_cases hpk : threshold ≤ peak
        · cases wait_pos
          all_goals
            simp only [ClickOnReference_execute, cor_tryBody,
              cor_postBlock, log_action_ok, hpk, if_true]
            exact ⟨_, _, rfl⟩
        · cases wait_pos
          all_goals
            simp only [ClickOnReference_execute, cor_tryBody,
              cor_postBlock, log_action_ok, hpk, if_false]
            exact ⟨_, _, rfl⟩
  · intro hf ht
    simp only at hf ht
    subst hf ht
    cases wait_pos
    · exact ⟨_, rfl⟩
    · exact ⟨_, rfl⟩
  · intro tw th hf ht hlt
    simp only at hf ht
    subst hf ht
    have hpk := not_le.mpr hlt
    cases wait_pos
    all_goals
      simp only [ClickOnReference_execute, cor_tryBody, cor_postBlock,
        log_action_ok, hpk, if_false]
      exact ⟨_, rfl⟩

/-- Witness for amended C3: a missing reference file returns the
context with `notFoundMissing`; a present reference with a low peak
returns `notFoundLowPeak`, both on a healthy log file. -/
theorem clickOnReference_nonfatal_when_log_ok_witness :
    (∃ fs', ClickOnReference_execute (8/10)
      ⟨none, (1920, 1080), 0, (0, 0), none⟩ false
      "2024-01-01 00:00:00" ⟨[], false⟩ initContext =
      .ok (initContext, fs', RefOutcome.notFoundMissing)) ∧
    (∃ fs', ClickOnReference_execute (8/10)
      ⟨some (40, 20), (1920, 1080), 1/10, (5, 7), none⟩ false
      "2024-01-01 00:00:00" ⟨[], false⟩ initContext =
      .ok (initContext, fs', RefOutcome.notFoundLowPeak (1/10))) := by
  exact ⟨(clickOnReference_nonfatal_when_log_ok (8/10)
      ⟨none, (1920, 1080), 0, (0, 0), none⟩ false
      "2024-01-01 00:00:00" [] initContext).2.1 rfl rfl,
    (clickOnReference_nonfatal_when_log_ok (8/10)
      ⟨some (40, 20), (1920, 1080), 1/10, (5, 7), none⟩ false
      "2024-01-01 00:00:00" [] initContext).2.2 40 20 rfl rfl
      (by norm_num)⟩

/-- Claim C4: when the peak is at or above the threshold, the match
center is the peak's top-left plus half the template dimensions
(Python `//` floor halving), the ratios are center over the capture's
dimensions, and recomputing pixels from those ratios against the same
capture is exact — `round((c/dim)*dim) = c` for every `0 ≤ c ≤ dim` —
so the clicked coordinates equal the computed center. Stated on a log
file whose writes succeed, so the accepted-match branch runs to its
`return` instead of raising on a log write. -/
theorem clickOnReference_center_roundtrip (threshold : ℚ)
    (env : ScreenEnv) (wait_pos : Bool) (stamp : String)
    (lines : List String) (ctx : BotContext) (tw th : ℕ)
    (hf : env.cvFault = none) (ht : env.template = some (tw, th))
    (hpeak : threshold ≤ env.matchPeak)
    (hw : 0 < env.capture.1) (hh : 0 < env.capture.2) :
    (∃ fs', ClickOnReference_execute threshold env wait_pos stamp
      ⟨lines, false⟩ ctx =
      .ok (ctx, fs',
        .clicked ((env.matchLoc.1 + tw / 2 : ℕ) : ℤ)
          ((env.matchLoc.2 + th / 2 : ℕ) : ℤ))) ∧
    (∀ c dim : ℕ, c ≤ dim → 0 < dim →
      pyRound ((c : ℚ) / dim * dim) = c) := by
  have hround : ∀ c dim : ℕ, 0 < dim →
      pyRound ((c : ℚ) / dim * dim) = c := by
    intro c dim hdim
    have hdq : (dim : ℚ) ≠ 0 := by
      exact_mod_cast hdim.ne'
    rw [div_mul_cancel₀ _ hdq, pyRound_natCast]
  refine ⟨?_, fun c dim _ hdim => hround c dim hdim⟩
  obtain ⟨tpl, cap, peak, loc, fault⟩ := env
  simp only at hf ht hpeak hw hh
  subst hf ht
  have hx : refClickX ⟨some (tw, th), cap, peak, loc, none⟩ tw =
      ((loc.1 + tw / 2 : ℕ) : ℤ) := hround _ _ hw
  have hy : refClickY ⟨some (tw, th), cap, peak, loc, none⟩ th =
      ((loc.2 + th / 2 : ℕ) : ℤ) := hround _ _ hh
  cases wait_pos
  all_goals
    simp only [← hx, ← hy]
    simp only [ClickOnReference_execute, cor_tryBody, log_action_ok,
      hpeak, if_true]
    exact ⟨_, rfl⟩

/-- Witness for C4: a 40x20 template matched at top-left (100, 200) on
a 1920x1080 capture with peak 0.9 against threshold 0.8 clicks exactly
the center (120, 210). -/
theorem clickOnReference_center_roundtrip_witness :
    ∃ fs', ClickOnReference_execute (8/10)
      ⟨some (40, 20), (1920, 1080), 9/10, (100, 200), none⟩ false
      "2024-01-01 00:00:00" ⟨[], false⟩ initContext =
      .ok (initContext, fs', RefOutcome.clicked 120 210) := by
  have h := clickOnReference_center_roundtrip (8/10)
    ⟨some (40, 20), (1920, 1080), 9/10, (100, 200), none⟩ false
    "2024-01-01 00:00:00" [] initContext 40 20 rfl rfl (by norm_num)
    (by norm_num) (by norm_num)
  obtain ⟨fs', hfs⟩ := h.1
  exact ⟨fs', by simpa using hfs⟩

/-- Claim C5: for every ratio pair in `[0,1] × [0,1]` and every screen
size `(w, h)`, the pixel targets `round(ratio * dim)` computed by
`MouseMove.execute` and `DragTo.execute` satisfy `0 ≤ pixelX ≤ w` and
`0 ≤ pixelY ≤ h`. -/
theorem ratio_pixel_in_bounds (x_ratio y_ratio : ℚ) (w h : ℕ)
    (hx0 : 0 ≤ x_ratio) (hx1 : x_ratio ≤ 1)
    (hy0 : 0 ≤ y_ratio) (hy1 : y_ratio ≤ 1) :
    (0 ≤ (MouseMove_target x_ratio y_ratio w h).1 ∧
      (MouseMove_target x_ratio y_ratio w h).1 ≤ w ∧
      0 ≤ (MouseMove_target x_ratio y_ratio w h).2 ∧
      (MouseMove_target x_ratio y_ratio w h).2 ≤ h) ∧
    DragTo_target x_ratio y_ratio w h =
      MouseMove_target x_ratio y_ratio w h := by
  have hbound : ∀ (r : ℚ) (d : ℕ), 0 ≤ r → r ≤ 1 →
      0 ≤ ratioPixel r d ∧ ratioPixel r d ≤ d := by
    intro r d hr0 hr1
    have hd0 : (0 : ℚ) ≤ (d : ℚ) := by positivity
    constructor
    · exact pyRound_nonneg (mul_nonneg hr0 hd0)
    · apply pyRound_le_int
      calc r * d ≤ 1 * d := by
            exact mul_le_mul_of_nonneg_right hr1 hd0
      _ = ((d : ℤ) : ℚ) := by push_cast; ring
  exact ⟨⟨(hbound x_ratio w hx0 hx1).1, (hbound x_ratio w hx0 hx1).2,
    (hbound y_ratio h hy0 hy1).1, (hbound y_ratio h hy0 hy1).2⟩, rfl⟩

/-- Witness for C5 at ratios (1/2, 1) on a 1920x1080 screen. -/
theorem ratio_pixel_in_bounds_witness :
    0 ≤ (MouseMove_target (1/2) 1 1920 1080).1 ∧
    (MouseMove_target (1/2) 1 1920 1080).1 ≤ 1920 ∧
    0 ≤ (MouseMove_target (1/2) 1 1920 1080).2 ∧
    (MouseMove_target (1/2) 1 1920 1080).2 ≤ 1080 := by
  have h := ratio_pixel_in_bounds (1/2) 1 1920 1080
    (by norm_num) (by norm_num) (by norm_num) (by norm_num)
  exact ⟨h.1.1, h.1.2.1, h.1.2.2.1, h.1.2.2.2⟩

/-- Claim C6: constructing any selector-based browser step
(`ClickElement`, `FillInput`, `FillAndSubmit`, `ClickAndDownload`)
with neither an XPath nor a CSS selector raises `ValueError` at
construction time — the constructors take no context and `execute` is
never reached — while supplying exactly one selector succeeds and
yields the selector tagged `xpath=` or `css=` respectively. -/
theorem selector_construction_fail_fast :
    parse_selector none none = .error "No selector provided" ∧
    (∀ x, x ≠ "" → parse_selector (some x) none =
      .ok ("xpath=" ++ x)) ∧
    (∀ c, c ≠ "" → parse_selector none (some c) =
      .ok ("css=" ++ c)) ∧
    (∀ w, ClickElement_init none none w =
      .error "No selector provided") ∧
    (∀ v w, FillInput_init none none v w =
      .error "No selector provided") ∧
    (∀ v w, FillAndSubmit_init none none v w =
      .error "No selector provided") ∧
    (∀ w p n, ClickAndDownload_init none none w p n =
      .error "No selector provided") ∧
    (∀ x w, x ≠ "" → ClickElement_init (some x) none w =
      .ok ⟨"xpath=" ++ x, w⟩) ∧
    (∀ c w, c ≠ "" → ClickElement_init none (some c) w =
      .ok ⟨"css=" ++ c, w⟩) := by
  refine ⟨rfl, ?_, ?_, fun w => rfl, fun v w => rfl, fun v w => rfl,
    fun w p n => rfl, ?_, ?_⟩
  · intro x hx
    simp [parse_selector, strTruthy, hx]
  · intro c hc
    simp [parse_selector, strTruthy, hc]
  · intro x w hx
    simp [ClickElement_init, parse_selector, strTruthy, hx,
      Except.map]
  · intro c w hc
    simp [ClickElement_init, parse_selector, strTruthy, hc,
      Except.map]

/-- Witness for C6 with the selectors `//div` (xpath) and `.btn`
(css). -/
theorem selector_construction_fail_fast_witness :
    parse_selector (some "//div") none = .ok ("xpath=" ++ "//div") ∧
    ClickElement_init none (some ".btn") 0 =
      .ok ⟨"css=" ++ ".btn", 0⟩ := by
  exact ⟨selector_construction_fail_fast.2.1 "//div" (by decide),
    selector_construction_fail_fast.2.2.2.2.2.2.2.2 ".btn" 0
      (by decide)⟩

/-- Claim C7 counterexample: `log_action` does not return normally to
its caller when the append to the run's log file fails — the bare
`with open(...)`/`write` in bot.py lines 201-202 has no handler, so
the write failure propagates, here at a concrete faulty filesystem. -/
theorem log_action_raises_on_write_failure :
    log_action ⟨[], true⟩ "2024-01-01 00:00:00" "step done" "👌" =
      .error "OSError: write failed" := rfl

/-- Claim C7 as amended: `log_action` returns normally exactly when
the append succeeds, appending the one formatted line; when the
append fails, the failure propagates to the calling step. -/
theorem log_action_propagates_write_failure (fs : LogFile)
    (stamp action outcome : String) :
    (fs.appendFaulty = false →
      log_action fs stamp action outcome =
        .ok ⟨fs.lines ++ [logLine stamp action outcome], false⟩) ∧
    (fs.appendFaulty = true →
      log_action fs stamp action outcome =
        .error "OSError: write failed") := by
  obtain ⟨lines, faulty⟩ := fs
  constructor
  · intro h
    simp only at h
    subst h
    rfl
  · intro h
    simp only at h
    subst h
    rfl

/-- Witness for amended C7: a healthy filesystem gets the line
appended; a faulty one sees the error. -/
theorem log_action_propagates_write_failure_witness :
    log_action ⟨[], false⟩ "2024-01-01 00:00:00" "ok" "👌" =
      .ok ⟨[logLine "2024-01-01 00:00:00" "ok" "👌"], false⟩ ∧
    log_action ⟨[], true⟩ "2024-01-01 00:00:00" "ok" "👌" =
      .error "OSError: write failed" := by
  exact ⟨(log_action_propagates_write_failure ⟨[], false⟩
      "2024-01-01 00:00:00" "ok" "👌").1 rfl,
    (log_action_propagates_write_failure ⟨[], true⟩
      "2024-01-01 00:00:00" "ok" "👌").2 rfl⟩

/-- Claim C8 is a code bug: with `accept=True`, `HandleDialog.execute`
registers `self.accept` — the boolean instance attribute assigned in
`__init__`, which shadows the `accept` staticmethod — as the page's
dialog handler, so the registered handler is not callable and no
dialog is ever accepted; only the `accept=False` branch registers an
actual callable (`dismiss`). This evaluates the code at the failing
input, contradicting the step's own docstring and log line. -/
theorem handleDialog_registers_non_callable :
    handleDialog_registered true = .boolean true ∧
    (handleDialog_registered true).isCallable = false ∧
    handleDialog_registered false = .callable .dismiss ∧
    (handleDialog_registered false).isCallable = true := by
  refine ⟨rfl, rfl, rfl, rfl⟩

/-- Claim C9 counterexample: `get_page` does not resolve for *every*
index argument. After the first page is opened (`pages = [0]`, so
`pages` is non-empty), `get_page` with index `1` evaluates
`self.pages[1]`, a Python `IndexError` — it fails rather than falling
back to the single active page. -/
theorem get_page_index_error :
    (set_page initContext 0).pages = [0] ∧
    get_page (set_page initContext 0) 1 =
      .error "IndexError: list index out of range" := by
  exact ⟨rfl, rfl⟩

/-- Claim C9 as amended: once `set_page` has been called, `pages` is
non-empty and stays non-empty under every subsequent context
operation, and `get_page` resolves to a valid entry of `pages` for
every index in Python's valid range `-len ≤ i < len` — in particular
for the default index `-1`. -/
theorem pages_nonempty_get_page_valid (ctx : BotContext) (p : Nat)
    (ops : List CtxOp) :
    (applyOps (set_page ctx p) ops).pages ≠ [] ∧
    (∀ i : ℤ,
      -((applyOps (set_page ctx p) ops).pages.length : ℤ) ≤ i →
      i < ((applyOps (set_page ctx p) ops).pages.length : ℤ) →
      ∃ q, get_page (applyOps (set_page ctx p) ops) i = .ok (some q) ∧
        q ∈ (applyOps (set_page ctx p) ops).pages) ∧
    (∃ q, get_page (applyOps (set_page ctx p) ops) (-1) =
        .ok (some q) ∧
      q ∈ (applyOps (set_page ctx p) ops).pages) := by
  have hne := applyOps_pages_ne_nil (set_page ctx p) ops
    (set_page_pages_ne_nil ctx p)
  have hlen : 0 < (applyOps (set_page ctx p) ops).pages.length :=
    List.length_pos.mpr hne
  exact ⟨hne, fun i h0 h1 => get_page_valid_index _ i hne h0 h1,
    get_page_valid_index _ (-1) hne (by omega) (by omega)⟩

/-- Witness for amended C9: open page 7, then store a datum; the
pages list is non-empty and the default `get_page` lookup resolves to
page 7. -/
theorem pages_nonempty_get_page_valid_witness :
    (applyOps (set_page initContext 7) [CtxOp.storeData "k" "v"]).pages
      ≠ [] ∧
    ∃ q, get_page
        (applyOps (set_page initContext 7) [CtxOp.storeData "k" "v"])
        (-1) = .ok (some q) ∧
      q ∈ (applyOps (set_page initContext 7)
        [CtxOp.storeData "k" "v"]).pages := by
  have h := pages_nonempty_get_page_valid initContext 7
    [CtxOp.storeData "k" "v"]
  exact ⟨h.1, h.2.2⟩

/-- Claim C10: with `randomize=True`, `Sleep.execute` derives its
jitter bounds from the seconds value `duration/1000`; whenever the
bounds differ the slept time is `randint(min, max) / 1000` seconds —
at most `(duration/1000 + 1)/1000`, about a thousandth of the
configured duration — and only when the bounds coincide does it sleep
the full `duration/1000` seconds. -/
theorem sleep_randomize_jitter (duration_ms : ℕ) (r : ℤ)
    (hmin : sleepMin duration_ms ≤ r)
    (hmax : r ≤ sleepMax duration_ms) :
    sleepMin duration_ms =
      max (pyTrunc ((duration_ms : ℚ) / 1000 - 1)) 1 ∧
    sleepMax duration_ms =
      max (pyTrunc ((duration_ms : ℚ) / 1000 + 1))
        (sleepMin duration_ms) ∧
    (sleepMin duration_ms ≠ sleepMax duration_ms →
      sleepActual duration_ms r = (r : ℚ) / 1000 ∧
      sleepActual duration_ms r ≤
        ((duration_ms : ℚ) / 1000 + 1) / 1000) ∧
    (sleepMin duration_ms = sleepMax duration_ms →
      sleepActual duration_ms r = (duration_ms : ℚ) / 1000) := by
  refine ⟨rfl, rfl, ?_, ?_⟩
  · intro hne
    have hact : sleepActual duration_ms r = (r : ℚ) / 1000 := by
      unfold sleepActual
      rw [if_pos hne]
    refine ⟨hact, ?_⟩
    have hmx : sleepMax duration_ms =
        pyTrunc (sleepDurationSec duration_ms + 1) := by
      rcases max_cases (pyTrunc (sleepDurationSec duration_ms + 1))
          (sleepMin duration_ms) with ⟨he, _⟩ | ⟨he, _⟩
      · exact he
      · exact absurd (he.symm : sleepMin duration_ms =
          sleepMax duration_ms) hne
    have hsd : (0 : ℚ) ≤ sleepDurationSec duration_ms + 1 := by
      unfold sleepDurationSec
      positivity
    have htle : (pyTrunc (sleepDurationSec duration_ms + 1) : ℚ) ≤
        sleepDurationSec duration_ms + 1 := pyTrunc_le_self hsd
    have hrq : (r : ℚ) ≤ sleepDurationSec duration_ms + 1 := by
      have : (r : ℚ) ≤ (sleepMax duration_ms : ℚ) :=
        Int.cast_le.mpr hmax
      rw [hmx] at this
      exact this.trans htle
    rw [hact]
    have h1000 : (0 : ℚ) < 1000 := by norm_num
    exact (div_le_div_right h1000).mpr hrq
  · intro heq
    unfold sleepActual
    rw [if_neg (fun hc => hc heq)]
    rfl

/-- Witness for C10 at the default `duration=3000`: bounds are 2 and
4, a draw of 3 sleeps 3/1000 s, a thousandth of the configured 3 s. -/
theorem sleep_randomize_jitter_witness :
    sleepMin 3000 ≤ 3 ∧ (3 : ℤ) ≤ sleepMax 3000 ∧
    sleepMin 3000 ≠ sleepMax 3000 ∧
    sleepActual 3000 3 = 3 / 1000 ∧
    sleepActual 3000 3 ≤ ((3000 : ℚ) / 1000 + 1) / 1000 := by
  have hmn : sleepMin 3000 = 2 := by
    unfold sleepMin sleepDurationSec pyTrunc
    norm_num
  have hmx : sleepMax 3000 = 4 := by
    unfold sleepMax sleepMin sleepDurationSec pyTrunc
    norm_num
  have hmin : sleepMin 3000 ≤ 3 := by rw [hmn]; norm_num
  have hmax : (3 : ℤ) ≤ sleepMax 3000 := by rw [hmx]; norm_num
  have hne : sleepMin 3000 ≠ sleepMax 3000 := by
    rw [hmn, hmx]; norm_num
  have h := sleep_randomize_jitter 3000 3 hmin hmax
  exact ⟨hmin, hmax, hne, (h.2.2.1 hne).1, (h.2.2.1 hne).2⟩

end Sagebot
